import Mathlib

/-!
Verification of the NS9xxx I2C bus driver
(src/drivers/i2c/busses/i2c-ns9xxx.c) against its specification.

The driver is shallowly embedded: registers and hardware responses are
abstracted as oracle functions (read streams, interrupt/completion outcomes,
sampled GPIO levels), machine integers are Nat with explicit wrap where the
C code can wrap, and each C function becomes a Lean function over those
oracles that returns the value the C function returns together with the
externally visible effects (command-register writes, reinit invocations,
buffer-cursor updates) that the claims talk about.
-/

/- ===== register and bit-field constants (source lines 29-76) ===== -/

/-- I2C_CMD_TXVAL, source line 37: 1 << 13. -/
def I2C_CMD_TXVAL : Nat := 0x2000

/-- I2C_CMD_NOP, source line 55. -/
def I2C_CMD_NOP : Nat := 0

/-- I2C_CMD_READ, source line 56: 4 << 8. -/
def I2C_CMD_READ : Nat := 0x400

/-- I2C_CMD_WRITE, source line 57: 5 << 8. -/
def I2C_CMD_WRITE : Nat := 0x500

/-- I2C_CMD_STOP, source line 58: 6 << 8. -/
def I2C_CMD_STOP : Nat := 0x600

/-- I2C_IRQ_ARBITLOST, source line 62: 1 << 8. -/
def I2C_IRQ_ARBITLOST : Nat := 0x100

/-- I2C_IRQ_NOACK, source line 63: 2 << 8. -/
def I2C_IRQ_NOACK : Nat := 0x200

/-- I2C_IRQ_TXDATA, source line 64: 3 << 8. -/
def I2C_IRQ_TXDATA : Nat := 0x300

/-- I2C_IRQ_RXDATA, source line 65: 4 << 8. -/
def I2C_IRQ_RXDATA : Nat := 0x400

/-- I2C_IRQ_CMDACK, source line 66: 5 << 8. -/
def I2C_IRQ_CMDACK : Nat := 0x500

/-- I2C_NORMALSPEED, source line 68. -/
def I2C_NORMALSPEED : Nat := 100000

/-- I2C_HIGHSPEED, source line 69. -/
def I2C_HIGHSPEED : Nat := 400000

/-- I2C_STATUS_MCMDL (master command lock), source line 74. -/
def I2C_STATUS_MCMDL : Nat := 0x1000

/-- I2C_STATUS_IRQCD_MASK (interrupt cause code), source line 75. -/
def I2C_STATUS_IRQCD_MASK : Nat := 0x0f00

/-- I2C_STATUS_RXDATA_MASK, source line 76. -/
def I2C_STATUS_RXDATA_MASK : Nat := 0x00ff

/-- I2C_CONFIG_CLREFMASK, source line 42: a nine-bit field mask. -/
def I2C_CONFIG_CLREFMASK : Nat := 0x000001ff

/-- I2C_CONFIG_TMDE, source line 47: 1 << 14. -/
def I2C_CONFIG_TMDE : Nat := 0x4000

/-- I2C_CONFIG_VSCD, source line 48: 1 << 13. -/
def I2C_CONFIG_VSCD : Nat := 0x2000

/-- BUSY_RELEASE_ATTEMPTS, source line 461. -/
def BUSY_RELEASE_ATTEMPTS : Nat := 10

/-- Linux errno eioErr = 5. -/
def eioErr : Int := 5

/-- Linux errno enodevErr = 19. -/
def enodevErr : Int := 19

/-- Linux errno einvalErr = 22. -/
def einvalErr : Int := 22

/-- Linux errno ETIMEDOUT = 110. -/
def etimedoutErr : Int := 110

/-- 2 to the power 32; the C driver does its clock arithmetic in 32-bit
unsigned long values, so subtraction and multiplication wrap modulo this. -/
def two32 : Nat := 4294967296

/- ===== completion state (enum i2c_int_state, source lines 102-108) ===== -/

/-- The completion state latched by the interrupt handler,
enum i2c_int_state of source lines 102-108. -/
inductive IntState where
  | awaiting
  | ok
  | retry
  | error
  | abort
deriving DecidableEq

/- ===== busy/lock recovery (ns9xxx_wait_while_busy, lines 463-501) ===== -/

/-- Outcome of one polling attempt of the busy-wait loop: either the
master-command-lock bit cleared, or the polling window expired.  The carried
number is the index of the next unread entry of the status-read stream. -/
inductive PollOut where
  | cleared (next : Nat)
  | expired (next : Nat)
deriving DecidableEq

/-- One attempt of the inner polling loop of ns9xxx_wait_while_busy (source
lines 479-491).  The stream `reads` gives the successive values returned by
readl of the status register inside the wait loop; `w` is the number of poll
iterations that fit in the one-second window before time_after fires.  When a
poll sees the lock bit clear the code does one extra diagnostic read (source
lines 484-488), hence the read index advances by 2 on success. -/
def pollAttempt (reads : Nat → Nat) : Nat → Nat → PollOut
  | idx, 0 => PollOut.expired idx
  | idx, w+1 =>
    if reads idx &&& I2C_STATUS_MCMDL = 0 then PollOut.cleared (idx + 2)
    else pollAttempt reads (idx + 1) w

/-- The outer attempt loop of ns9xxx_wait_while_busy (source lines 478-496):
up to `n` attempts, invoking ns9xxx_reinit_i2c after each expired window.
Returns the C return value and the number of reinit invocations. -/
def busyAttempts (reads : Nat → Nat) (w : Nat) : Nat → Nat → Int × Nat
  | _idx, 0 => (-etimedoutErr, 0)
  | idx, n+1 =>
    match pollAttempt reads idx w with
    | PollOut.cleared _ => (0, 0)
    | PollOut.expired idx2 =>
      let p := busyAttempts reads w idx2 n
      (p.1, p.2 + 1)

/-- ns9xxx_wait_while_busy (source lines 463-501): returns the C return value
together with the number of times ns9xxx_reinit_i2c was invoked.  Read index 0
is the initial status read of source line 472; the reads performed inside
ns9xxx_reinit_i2c itself are not part of the stream. -/
def ns9xxx_wait_while_busy (reads : Nat → Nat) (w : Nat) : Int × Nat :=
  if reads 0 &&& I2C_STATUS_MCMDL = 0 then (0, 0)
  else busyAttempts reads w 1 BUSY_RELEASE_ATTEMPTS

/- ===== command/wait protocol (ns9xxx_i2c_send_cmd, lines 185-238) ===== -/

/-- Externally visible result of one ns9xxx_i2c_send_cmd call: the return
value, the list of words written to the command register, and whether the
"bus seems free after waiting, but not retrying" condition of source line 209
was reported. -/
structure SendCmdRun where
  ret : Int
  writes : List Nat
  stuckReported : Bool
deriving DecidableEq

/-- ns9xxx_i2c_send_cmd (source lines 185-238).  `status0` is the status read
of line 190; `entryReads`/`timeoutReads` feed the two possible
ns9xxx_wait_while_busy calls (lines 192 and 208); `wake` is none when the
bounded wait of line 203 timed out, and otherwise carries the completion
state observed after the wakeup.  The retry block of lines 211-226 is
compiled out (#if 0) and hence absent here: on the timeout path the command
is never written a second time. -/
def ns9xxx_i2c_send_cmd (cmd status0 : Nat) (entryReads timeoutReads : Nat → Nat)
    (w : Nat) (wake : Option IntState) : SendCmdRun :=
  if status0 &&& I2C_STATUS_MCMDL ≠ 0 ∧ (ns9xxx_wait_while_busy entryReads w).1 ≠ 0 then
    ⟨-etimedoutErr, [], false⟩
  else
    match wake with
    | none =>
      if (ns9xxx_wait_while_busy timeoutReads w).1 = 0 then ⟨-etimedoutErr, [cmd], true⟩
      else ⟨-etimedoutErr, [cmd], false⟩
    | some s => if s = IntState.ok then ⟨0, [cmd], false⟩ else ⟨-eioErr, [cmd], false⟩

/- ===== interrupt classifier (ns9xxx_i2c_irq, lines 146-183) ===== -/

/-- One observable action of the interrupt handler, in program order. -/
inductive IrqEvent where
  | readStatus (v : Nat)
  | storeByte (b : Nat)
  | writeCmd (word : Nat)
  | setState (s : IntState)
  | wake
deriving DecidableEq

/-- ns9xxx_i2c_irq (source lines 146-183) as the ordered list of its
observable actions.  `status` is the value the status read returns, `st` the
completion state on entry, `bufSet` whether dev_data->buf is non-null.  The
RXDATA case falls through to the OK cases (no break, lines 160-166); NOACK
writes a STOP command before setting the Abort state (lines 167-170). -/
def ns9xxx_i2c_irq (status : Nat) (st : IntState) (bufSet : Bool) : List IrqEvent :=
  if st ≠ IntState.awaiting then [IrqEvent.readStatus status]
  else if status &&& I2C_STATUS_IRQCD_MASK = I2C_IRQ_RXDATA then
    IrqEvent.readStatus status ::
      ((if bufSet then [IrqEvent.storeByte (status &&& I2C_STATUS_RXDATA_MASK)] else []) ++
        [IrqEvent.setState IntState.ok, IrqEvent.wake])
  else if status &&& I2C_STATUS_IRQCD_MASK = I2C_IRQ_CMDACK ∨
      status &&& I2C_STATUS_IRQCD_MASK = I2C_IRQ_TXDATA then
    [IrqEvent.readStatus status, IrqEvent.setState IntState.ok, IrqEvent.wake]
  else if status &&& I2C_STATUS_IRQCD_MASK = I2C_IRQ_NOACK then
    [IrqEvent.readStatus status, IrqEvent.writeCmd I2C_CMD_STOP,
     IrqEvent.setState IntState.abort, IrqEvent.wake]
  else if status &&& I2C_STATUS_IRQCD_MASK = I2C_IRQ_ARBITLOST then
    [IrqEvent.readStatus status, IrqEvent.setState IntState.retry, IrqEvent.wake]
  else
    [IrqEvent.readStatus status, IrqEvent.setState IntState.error, IrqEvent.wake]

/- ===== bit-bang address probe (ns9xxx_i2c_bitbang, lines 274-322) ===== -/

/-- Result of the bit-bang address probe: the levels driven on the data line
for the successive address bits, and the C return value. -/
structure BitbangRun where
  drives : List Nat
  ret : Int
deriving DecidableEq

/-- ns9xxx_i2c_bitbang (source lines 274-322).  `ten` is the I2C_M_TEN flag,
`addr` the message address, `ackSample` the level gpio_get_value reads on the
data line at the acknowledge slot (line 311).  Both branches of the address
bit test drive the data line high (source lines 294-297), and the function
returns 0 when the sampled level is high and -enodevErr when it is low
(line 321: return ret ? 0 : -enodevErr). -/
def ns9xxx_i2c_bitbang (ten : Bool) (addr : Nat) (ackSample : Bool) : BitbangRun :=
  let nrBits := if ten then 10 else 7
  let drives := (List.range nrBits).map
    (fun j => if addr &&& (1 <<< (nrBits - j - 1)) ≠ 0 then 1 else 1)
  ⟨drives, if ackSample then 0 else -enodevErr⟩

/- ===== byte transfer driver (read/write, lines 240-272) ===== -/

/-- Outcome of one ns9xxx_i2c_send_cmd call as its callers inside the
transfer path observe it: the call either succeeds leaving state OK
(lines 232-237), times out leaving state Awaiting, or fails with -eioErr
carrying the state the interrupt classifier latched. -/
inductive SendOutcome where
  | ok
  | timeout
  | fail (s : IntState)
deriving DecidableEq

/-- Return value and resulting completion state of a send outcome. -/
def sendStep : SendOutcome → Int × IntState
  | SendOutcome.ok => (0, IntState.ok)
  | SendOutcome.timeout => (-etimedoutErr, IntState.awaiting)
  | SendOutcome.fail s => (-eioErr, s)

/-- ns9xxx_i2c_read (source lines 240-256): while (count-- > 1) advance the
cursor and send a NOP; stop on the first failure.  `send` is the stream of
command outcomes and `k` the index of the next one; returns the C return
value, the next outcome index and the final completion state. -/
def ns9xxx_i2c_read (send : Nat → SendOutcome) : Nat → Nat → IntState → Int × Nat × IntState
  | k, 0, st => (0, k, st)
  | k, 1, st => (0, k, st)
  | k, count+2, st =>
    let p := sendStep (send k)
    if p.1 = 0 then ns9xxx_i2c_read send (k+1) (count+1) p.2
    else (p.1, k+1, p.2)

/-- Externally visible result of ns9xxx_i2c_write: the command words issued,
the C return value, the next send-outcome index, and the final state. -/
structure WriteRun where
  cmds : List Nat
  ret : Int
  next : Nat
  st : IntState
deriving DecidableEq

/-- ns9xxx_i2c_write (source lines 258-272): while (count--) send
I2C_CMD_NOP | I2C_CMD_TXVAL | *buf, stopping on the first failure.  The
bytes to send are given as a list (the C count equals its length). -/
def ns9xxx_i2c_write (send : Nat → SendOutcome) : Nat → IntState → List Nat → WriteRun
  | k, st, [] => ⟨[], 0, k, st⟩
  | k, st, b :: rest =>
    let cmd := I2C_CMD_NOP ||| I2C_CMD_TXVAL ||| b
    let p := sendStep (send k)
    if p.1 = 0 then
      let q := ns9xxx_i2c_write send (k+1) p.2 rest
      ⟨cmd :: q.cmds, q.ret, q.next, q.st⟩
    else ⟨[cmd], p.1, k+1, p.2⟩

/- ===== clock configuration (ns9xxx_i2c_set_clock, lines 601-642) ===== -/

/-- 32-bit wrapping subtraction, the semantics of the unsigned long
subtraction in the CLKREF formulas. -/
def sub32 (a b : Nat) : Nat := (a % two32 + (two32 - b % two32)) % two32

/-- ns9xxx_i2c_set_clock (source lines 601-642).  `oldConfig` is the value
readl returns from the configuration register, `rate` the result of
clk_get_rate, `delay` the scl_delay module parameter, `freq` the requested
frequency.  Returns the C return value and the value written to the
configuration register (none when nothing is written: the -einvalErr path of
lines 630-634 returns before the writel of line 636).  Built without
CONFIG_MACH_CME9210JS, so the 400 kHz case (lines 618-629) is present. -/
def ns9xxx_i2c_set_clock (oldConfig rate delay freq : Nat) : Int × Option Nat :=
  if freq = I2C_NORMALSPEED then
    (0, some ((oldConfig % two32 &&& (two32 - 1 - I2C_CONFIG_CLREFMASK) &&&
        (two32 - 1 - I2C_CONFIG_TMDE) &&& (two32 - 1 - I2C_CONFIG_VSCD)) |||
      (sub32 (sub32 (rate % two32 / (4 * freq)) 4) delay / 2 &&& I2C_CONFIG_CLREFMASK)))
  else if freq = I2C_HIGHSPEED then
    (0, some (((oldConfig % two32 &&& (two32 - 1 - I2C_CONFIG_CLREFMASK) |||
        I2C_CONFIG_TMDE) &&& (two32 - 1 - I2C_CONFIG_VSCD)) |||
      (sub32 (sub32 (rate % two32 / (4 * freq)) 4) delay * 2 % two32 / 3 &&&
        I2C_CONFIG_CLREFMASK)))
  else (-einvalErr, none)

/- ===== transfer orchestrator (ns9xxx_i2c_xfer, lines 504-599) ===== -/

/-- An i2c_msg descriptor as the transfer loop consumes it: address,
I2C_M_TEN flag, I2C_M_RD flag, I2C_M_NOSTART flag, and the byte buffer
(the descriptor length equals the buffer length). -/
structure I2cMsg where
  addr : Nat
  ten : Bool
  rd : Bool
  nostart : Bool
  buf : List Nat
deriving DecidableEq

/-- Externally visible result of one ns9xxx_i2c_xfer call:
ret        - the C return value;
procSeq    - the indices of the messages whose processing began, in order;
retriesUsed- how many times the arbitration-loss block of lines 516-521 ran;
bbCalls    - the message indices routed to the bit-bang probe;
early      - true when the function returned through the in-loop
             return -eioErr of line 520 (skipping the tail block);
tailCmds   - the command words the tail block of lines 582-591 issued;
tailReset  - whether the tail block fell back to the GPIO bus reset;
bufFinal   - the final value of the dev_data->buf cursor, as the index of
             the message whose buffer it points into (none = NULL). -/
structure XferOut where
  ret : Int
  procSeq : List Nat
  retriesUsed : Nat
  bbCalls : List Nat
  early : Bool
  tailCmds : List Nat
  tailReset : Bool
  bufFinal : Option Nat
deriving DecidableEq

/-- Loop state of ns9xxx_i2c_xfer between iterations: message index, retry
budget (a C int), next send-outcome index, next bit-bang sample index,
completion state, last ret, buffer cursor, and the accumulated observables. -/
structure XSt where
  i : Nat
  retry : Int
  k : Nat
  kb : Nat
  st : IntState
  ret : Int
  cur : Option Nat
  ps : List Nat
  ru : Nat
  bc : List Nat
deriving DecidableEq

/-- The tail block of ns9xxx_i2c_xfer (source lines 582-591): send STOP; if
that fails send NOP (outcome index k+1, result ignored) then STOP again; if
the second STOP also fails, force a GPIO bus reset.  Returns the issued
command words and whether the reset ran. -/
def xferTail (send : Nat → SendOutcome) (k : Nat) : List Nat × Bool :=
  if (sendStep (send k)).1 = 0 then ([I2C_CMD_STOP], false)
  else if (sendStep (send (k + 2))).1 = 0 then
    ([I2C_CMD_STOP, I2C_CMD_NOP, I2C_CMD_STOP], false)
  else ([I2C_CMD_STOP, I2C_CMD_NOP, I2C_CMD_STOP], true)

/-- Builds the result of ns9xxx_i2c_xfer on the paths that reach the code
after the message loop (lines 582-598): run the tail block, clear the
cursor, and return ret when negative, else the message index. -/
def mkTailOut (send : Nat → SendOutcome) (k : Nat) (ps : List Nat) (ru : Nat)
    (bc : List Nat) (ret : Int) (i : Nat) : XferOut :=
  let t := xferTail send k
  ⟨if ret < 0 then ret else Int.ofNat i, ps, ru, bc, false, t.1, t.2, none⟩

/-- The failure check after the payload phase of one message (source lines
572-578): on success continue with the next message; on failure restart from
the loop top when the state is Retry (i = 0; continue; of line 574 followed
by the for-loop increment makes the next index 1), else break out to the
tail block.  The triple carries the payload return value, the next
send-outcome index and the resulting completion state. -/
def payloadFinish (send : Nat → SendOutcome) (i : Nat) (retry : Int) (kb : Nat)
    (cur : Option Nat) (ps : List Nat) (ru : Nat) (bc : List Nat)
    (q : Int × Nat × IntState) : XSt ⊕ XferOut :=
  if q.1 = 0 then Sum.inl ⟨i + 1, retry, q.2.1, kb, q.2.2, 0, cur, ps, ru, bc⟩
  else if q.2.2 = IntState.retry then Sum.inl ⟨1, retry, q.2.1, kb, q.2.2, q.1, cur, ps, ru, bc⟩
  else Sum.inr (mkTailOut send q.2.1 ps ru bc q.1 i)

/-- The payload phase of one message (source lines 568-578): drive the
remaining bytes through ns9xxx_i2c_read or ns9xxx_i2c_write, then apply the
failure check. -/
def xferPayload (send : Nat → SendOutcome) (i : Nat) (retry : Int) (k kb : Nat)
    (st : IntState) (rd : Bool) (len : Nat) (bytes : List Nat) (cur : Option Nat)
    (ps : List Nat) (ru : Nat) (bc : List Nat) : XSt ⊕ XferOut :=
  payloadFinish send i retry kb cur ps ru bc
    (if rd then ns9xxx_i2c_read send k len st
     else ((ns9xxx_i2c_write send k st bytes).ret, (ns9xxx_i2c_write send k st bytes).next,
       (ns9xxx_i2c_write send k st bytes).st))

/-- The body of one iteration of the message loop after the arbitration-loss
block (source lines 523-579): set the cursor to this message, route
zero-length messages to the bit-bang probe (whose result is not checked
before the next message, lines 530-532), otherwise run the addressing phase
(unless I2C_M_NOSTART) followed by the payload phase.  For a write the
addressing command carries the first byte, so the payload starts at the
second byte (lines 551-556).  On an addressing failure with state Retry the
loop restarts: i = 0; continue; of line 561 plus the for-loop increment makes
the next iteration run with i = 1. -/
def xferMsgBody (send : Nat → SendOutcome) (bb : Nat → Bool) (msg : I2cMsg)
    (i : Nat) (retry : Int) (k kb : Nat) (st : IntState)
    (ps : List Nat) (ru : Nat) (bc : List Nat) : XSt ⊕ XferOut :=
  if msg.buf.length = 0 then
    Sum.inl ⟨i + 1, retry, k, kb + 1, st, (ns9xxx_i2c_bitbang msg.ten msg.addr (bb kb)).ret,
      some i, ps ++ [i], ru, bc ++ [i]⟩
  else if msg.nostart then
    xferPayload send i retry k kb st msg.rd msg.buf.length msg.buf (some i) (ps ++ [i]) ru bc
  else if (sendStep (send k)).1 = 0 then
    xferPayload send i retry (k + 1) kb (sendStep (send k)).2 msg.rd
      (if msg.rd then msg.buf.length else msg.buf.length - 1)
      (if msg.rd then msg.buf else msg.buf.tail) (some i) (ps ++ [i]) ru bc
  else if (sendStep (send k)).2 = IntState.retry then
    Sum.inl ⟨1, retry, k + 1, kb, (sendStep (send k)).2, (sendStep (send k)).1,
      some i, ps ++ [i], ru, bc⟩
  else
    Sum.inr (mkTailOut send (k + 1) (ps ++ [i]) ru bc (sendStep (send k)).1 i)

/-- One full iteration of the for loop of ns9xxx_i2c_xfer (source lines
515-580), or the exit to the tail block when i has reached the number of
messages.  When the previous iteration left state Retry, first run the
arbitration-loss block of lines 516-521: send STOP, decrement the budget,
and return -eioErr immediately (skipping tail block and cursor clear) when the
STOP failed or the budget is exhausted. -/
def xferStep (msgs : List I2cMsg) (send : Nat → SendOutcome) (bb : Nat → Bool)
    (s : XSt) : XSt ⊕ XferOut :=
  if s.i < msgs.length then
    if s.st = IntState.retry then
      if (sendStep (send s.k)).1 ≠ 0 ∨ s.retry - 1 = 0 then
        Sum.inr ⟨-eioErr, s.ps, s.ru + 1, s.bc, true, [], false, s.cur⟩
      else
        xferMsgBody send bb (msgs.getD s.i ⟨0, false, false, false, []⟩) s.i (s.retry - 1)
          (s.k + 1) s.kb (sendStep (send s.k)).2 s.ps (s.ru + 1) s.bc
    else
      xferMsgBody send bb (msgs.getD s.i ⟨0, false, false, false, []⟩) s.i s.retry s.k s.kb
        s.st s.ps s.ru s.bc
  else
    Sum.inr (mkTailOut send s.k s.ps s.ru s.bc s.ret s.i)

/-- Iterates xferStep; the fuel only bounds the number of loop iterations
evaluated (the C loop terminates because the retry budget is finite). -/
def xferRun (msgs : List I2cMsg) (send : Nat → SendOutcome) (bb : Nat → Bool) :
    Nat → XSt → Option XferOut
  | 0, _ => none
  | fuel+1, s =>
    match xferStep msgs send bb s with
    | Sum.inr out => some out
    | Sum.inl s2 => xferRun msgs send bb fuel s2

/-- ns9xxx_i2c_xfer (source lines 504-599): state initialised as at lines
508-513 (i = 0, retry = 10, state = OK, ret = 0, cursor untouched). -/
def ns9xxx_i2c_xfer (msgs : List I2cMsg) (send : Nat → SendOutcome) (bb : Nat → Bool)
    (fuel : Nat) : Option XferOut :=
  xferRun msgs send bb fuel ⟨0, 10, 0, 0, IntState.ok, 0, none, [], 0, []⟩

/- ===== concrete scenarios used by the counterexamples ===== -/

/-- A one-byte write message to address 80. -/
def msgW : I2cMsg := ⟨80, false, false, false, [7]⟩

/-- A two-message write sequence. -/
def msgs2 : List I2cMsg := [msgW, msgW]

/-- A single zero-length message (address-only probe). -/
def msgs0 : List I2cMsg := [⟨80, false, false, false, []⟩]

/-- Every command completes successfully. -/
def sendOk : Nat → SendOutcome := fun _ => SendOutcome.ok

/-- The first command loses arbitration; everything afterwards succeeds. -/
def sendC1 : Nat → SendOutcome :=
  fun k => if k = 0 then SendOutcome.fail IntState.retry else SendOutcome.ok

/-- Exactly ten commands lose arbitration (the even outcome indices below 20,
which in the msgs2 run are precisely the addressing commands), and every
other command succeeds. -/
def sendC3 : Nat → SendOutcome :=
  fun k => if k % 2 = 0 ∧ k < 20 then SendOutcome.fail IntState.retry else SendOutcome.ok

/-- The first command loses arbitration and the following STOP fails. -/
def sendC9 : Nat → SendOutcome :=
  fun k => if k = 0 then SendOutcome.fail IntState.retry else SendOutcome.fail IntState.error

/-- The acknowledge slot always samples low (a device acknowledging). -/
def bbLow : Nat → Bool := fun _ => false

/- ===== invariants used by the orchestrator proofs ===== -/

/-- Loop invariant of the transfer orchestrator: the retry budget and the
count of executed arbitration-loss blocks always sum to 10, and the budget
is still positive. -/
def XInv (s : XSt) : Prop := s.ru + s.retry.toNat = 10 ∧ 1 ≤ s.retry

/-- The exit properties of the transfer orchestrator that the retry-budget
and tail-cleanup claims need. -/
def XOutP (r : XferOut) : Prop :=
  r.retriesUsed ≤ 10 ∧
  (r.retriesUsed = 10 → r.ret = -eioErr ∧ r.early = true) ∧
  (r.early = false → r.bufFinal = none ∧
    (r.tailCmds = [I2C_CMD_STOP] ∨
      r.tailCmds = [I2C_CMD_STOP, I2C_CMD_NOP, I2C_CMD_STOP]) ∧
    (r.tailReset = true → r.tailCmds = [I2C_CMD_STOP, I2C_CMD_NOP, I2C_CMD_STOP])) ∧
  (r.early = true → r.ret = -eioErr ∧ r.tailCmds = [] ∧ r.tailReset = false)

/- ===== helper lemmas ===== -/

/-- Wrapping 32-bit subtraction agrees with natural subtraction when no
underflow occurs. -/
theorem sub32_of_le (a b : Nat) (ha : a < two32) (hb : b ≤ a) : sub32 a b = a - b := by
  have hb2 : b % two32 = b := Nat.mod_eq_of_lt (lt_of_le_of_lt hb ha)
  have ha2 : a % two32 = a := Nat.mod_eq_of_lt ha
  unfold sub32
  rw [ha2, hb2]
  have hsplit : a + (two32 - b) = two32 + (a - b) := by
    have hb3 : b ≤ two32 := le_of_lt (lt_of_le_of_lt hb ha)
    omega
  rw [hsplit, Nat.add_mod_left, Nat.mod_eq_of_lt (by omega)]

/-- An expired polling window consumed exactly its whole budget of status
reads, every one of which still showed the lock bit set. -/
theorem pollAttempt_expired_spec (reads : Nat → Nat) :
    ∀ (w idx idx2 : Nat), pollAttempt reads idx w = PollOut.expired idx2 →
      idx2 = idx + w ∧ ∀ j, j < w → reads (idx + j) &&& I2C_STATUS_MCMDL ≠ 0 := by
  intro w
  induction w with
  | zero =>
    intro idx idx2 h
    simp only [pollAttempt, PollOut.expired.injEq] at h
    exact ⟨by omega, by intro j hj; omega⟩
  | succ n ih =>
    intro idx idx2 h
    by_cases hc : reads idx &&& I2C_STATUS_MCMDL = 0
    · simp [pollAttempt, hc] at h
    · rw [pollAttempt, if_neg hc] at h
      obtain ⟨h1, h2⟩ := ih (idx + 1) idx2 h
      refine ⟨by omega, ?_⟩
      intro j hj
      rcases Nat.eq_zero_or_pos j with rfl | hpos
      · simpa using hc
      · have hj2 : j - 1 < n := by omega
        have h3 := h2 (j - 1) hj2
        have heq : idx + 1 + (j - 1) = idx + j := by omega
        rwa [heq] at h3

/-- The attempt loop never reinitialises more often than its budget. -/
theorem busyAttempts_reinits_le (reads : Nat → Nat) (w : Nat) :
    ∀ (n idx : Nat), (busyAttempts reads w idx n).2 ≤ n := by
  intro n
  induction n with
  | zero => intro idx; simp [busyAttempts]
  | succ n ih =>
    intro idx
    cases hp : pollAttempt reads idx w with
    | cleared j => simp [busyAttempts, hp]
    | expired j =>
      simp only [busyAttempts, hp]
      exact Nat.succ_le_succ (ih j)

/-- When the attempt loop fails it fails with -ETIMEDOUT after running its
whole budget of reinitialisations. -/
theorem busyAttempts_fail (reads : Nat → Nat) (w : Nat) :
    ∀ (n idx : Nat), (busyAttempts reads w idx n).1 ≠ 0 →
      (busyAttempts reads w idx n).1 = -etimedoutErr ∧ (busyAttempts reads w idx n).2 = n := by
  intro n
  induction n with
  | zero => intro idx h; simp [busyAttempts]
  | succ n ih =>
    intro idx h
    cases hp : pollAttempt reads idx w with
    | cleared j => simp [busyAttempts, hp] at h
    | expired j =>
      simp only [busyAttempts, hp] at h ⊢
      obtain ⟨h1, h2⟩ := ih j (by simpa using h)
      exact ⟨h1, by omega⟩

/-- The result assembled after the message loop: not an early return, cursor
cleared, and the tail block issued STOP, escalating at most to NOP plus STOP,
with the GPIO reset only after the escalated STOP also failed. -/
theorem mkTailOut_spec (send : Nat → SendOutcome) (k : Nat) (ps : List Nat) (ru : Nat)
    (bc : List Nat) (ret : Int) (i : Nat) :
    (mkTailOut send k ps ru bc ret i).retriesUsed = ru ∧
    (mkTailOut send k ps ru bc ret i).early = false ∧
    (mkTailOut send k ps ru bc ret i).bufFinal = none ∧
    ((mkTailOut send k ps ru bc ret i).tailCmds = [I2C_CMD_STOP] ∨
      (mkTailOut send k ps ru bc ret i).tailCmds = [I2C_CMD_STOP, I2C_CMD_NOP, I2C_CMD_STOP]) ∧
    ((mkTailOut send k ps ru bc ret i).tailReset = true →
      (mkTailOut send k ps ru bc ret i).tailCmds = [I2C_CMD_STOP, I2C_CMD_NOP, I2C_CMD_STOP]) := by
  unfold mkTailOut xferTail
  split_ifs <;> simp

/-- The failure check keeps the retry budget and the retry-block count
unchanged, and on break produces a tail-block result. -/
theorem payloadFinish_spec (send : Nat → SendOutcome) (i : Nat) (retry : Int) (kb : Nat)
    (cur : Option Nat) (ps : List Nat) (ru : Nat) (bc : List Nat) (q : Int × Nat × IntState) :
    (∀ s2, payloadFinish send i retry kb cur ps ru bc q = Sum.inl s2 →
      s2.retry = retry ∧ s2.ru = ru) ∧
    (∀ r, payloadFinish send i retry kb cur ps ru bc q = Sum.inr r →
      r.retriesUsed = ru ∧ r.early = false ∧ r.bufFinal = none ∧
      (r.tailCmds = [I2C_CMD_STOP] ∨
        r.tailCmds = [I2C_CMD_STOP, I2C_CMD_NOP, I2C_CMD_STOP]) ∧
      (r.tailReset = true → r.tailCmds = [I2C_CMD_STOP, I2C_CMD_NOP, I2C_CMD_STOP])) := by
  constructor
  · intro s2 h
    unfold payloadFinish at h
    split_ifs at h <;> simp only [Sum.inl.injEq] at h <;> subst h <;> simp
  · intro r h
    unfold payloadFinish at h
    split_ifs at h <;> simp only [Sum.inr.injEq] at h
    subst h
    exact mkTailOut_spec send q.2.1 ps ru bc q.1 i

/-- The payload phase keeps the retry budget and the retry-block count
unchanged, and on break produces a tail-block result. -/
theorem xferPayload_spec (send : Nat → SendOutcome) (i : Nat) (retry : Int) (k kb : Nat)
    (st : IntState) (rd : Bool) (len : Nat) (bytes : List Nat) (cur : Option Nat)
    (ps : List Nat) (ru : Nat) (bc : List Nat) :
    (∀ s2, xferPayload send i retry k kb st rd len bytes cur ps ru bc = Sum.inl s2 →
      s2.retry = retry ∧ s2.ru = ru) ∧
    (∀ r, xferPayload send i retry k kb st rd len bytes cur ps ru bc = Sum.inr r →
      r.retriesUsed = ru ∧ r.early = false ∧ r.bufFinal = none ∧
      (r.tailCmds = [I2C_CMD_STOP] ∨
        r.tailCmds = [I2C_CMD_STOP, I2C_CMD_NOP, I2C_CMD_STOP]) ∧
      (r.tailReset = true → r.tailCmds = [I2C_CMD_STOP, I2C_CMD_NOP, I2C_CMD_STOP])) := by
  unfold xferPayload
  exact payloadFinish_spec send i retry kb cur ps ru bc _

/-- The body of one message iteration keeps the retry budget and the
retry-block count unchanged, and on break produces a tail-block result. -/
theorem xferMsgBody_spec (send : Nat → SendOutcome) (bb : Nat → Bool) (msg : I2cMsg)
    (i : Nat) (retry : Int) (k kb : Nat) (st : IntState)
    (ps : List Nat) (ru : Nat) (bc : List Nat) :
    (∀ s2, xferMsgBody send bb msg i retry k kb st ps ru bc = Sum.inl s2 →
      s2.retry = retry ∧ s2.ru = ru) ∧
    (∀ r, xferMsgBody send bb msg i retry k kb st ps ru bc = Sum.inr r →
      r.retriesUsed = ru ∧ r.early = false ∧ r.bufFinal = none ∧
      (r.tailCmds = [I2C_CMD_STOP] ∨
        r.tailCmds = [I2C_CMD_STOP, I2C_CMD_NOP, I2C_CMD_STOP]) ∧
      (r.tailReset = true → r.tailCmds = [I2C_CMD_STOP, I2C_CMD_NOP, I2C_CMD_STOP])) := by
  unfold xferMsgBody
  split_ifs with h0 hns hp hrd hr
  · constructor
    · intro s2 h
      simp only [Sum.inl.injEq] at h
      subst h
      simp
    · intro r h
      simp at h
  · exact xferPayload_spec send i retry k kb st msg.rd msg.buf.length msg.buf
      (some i) (ps ++ [i]) ru bc
  · exact xferPayload_spec send i retry (k + 1) kb (sendStep (send k)).2 msg.rd
      msg.buf.length msg.buf (some i) (ps ++ [i]) ru bc
  · exact xferPayload_spec send i retry (k + 1) kb (sendStep (send k)).2 msg.rd
      (msg.buf.length - 1) msg.buf.tail (some i) (ps ++ [i]) ru bc
  · constructor
    · intro s2 h
      simp only [Sum.inl.injEq] at h
      subst h
      simp
    · intro r h
      simp at h
  · constructor
    · intro s2 h
      simp at h
    · intro r h
      simp only [Sum.inr.injEq] at h
      subst h
      exact mkTailOut_spec send (k + 1) (ps ++ [i]) ru bc (sendStep (send k)).1 i

/-- One orchestrator iteration preserves the budget invariant, and every
result it returns satisfies the exit properties. -/
theorem xferStep_spec (msgs : List I2cMsg) (send : Nat → SendOutcome) (bb : Nat → Bool)
    (s : XSt) (hInv : XInv s) :
    (∀ s2, xferStep msgs send bb s = Sum.inl s2 → XInv s2) ∧
    (∀ r, xferStep msgs send bb s = Sum.inr r → XOutP r) := by
  obtain ⟨hsum, hpos⟩ := hInv
  by_cases hi : s.i < msgs.length
  · by_cases hretry : s.st = IntState.retry
    · by_cases hfail : (sendStep (send s.k)).1 ≠ 0 ∨ s.retry - 1 = 0
      · have hstep : xferStep msgs send bb s =
            Sum.inr ⟨-eioErr, s.ps, s.ru + 1, s.bc, true, [], false, s.cur⟩ := by
          unfold xferStep
          rw [if_pos hi, if_pos hretry, if_pos hfail]
        constructor
        · intro s2 h
          rw [hstep] at h
          simp at h
        · intro r h
          rw [hstep] at h
          simp only [Sum.inr.injEq] at h
          subst h
          unfold XOutP
          refine ⟨show s.ru + 1 ≤ 10 by omega, fun _ => ⟨rfl, rfl⟩, fun hc => ?_,
            fun _ => ⟨rfl, rfl, rfl⟩⟩
          simp at hc
      · have hconj := not_or.mp hfail
        have hr0 : s.retry - 1 ≠ 0 := hconj.2
        have hretrypos : 1 ≤ s.retry - 1 := by omega
        have hru9 : s.ru + 1 ≤ 9 := by omega
        have hstep : xferStep msgs send bb s =
            xferMsgBody send bb (msgs.getD s.i ⟨0, false, false, false, []⟩) s.i (s.retry - 1)
              (s.k + 1) s.kb (sendStep (send s.k)).2 s.ps (s.ru + 1) s.bc := by
          unfold xferStep
          rw [if_pos hi, if_pos hretry, if_neg hfail]
        obtain ⟨hb1, hb2⟩ := xferMsgBody_spec send bb
          (msgs.getD s.i ⟨0, false, false, false, []⟩) s.i (s.retry - 1)
          (s.k + 1) s.kb (sendStep (send s.k)).2 s.ps (s.ru + 1) s.bc
        constructor
        · intro s2 h
          rw [hstep] at h
          obtain ⟨h1, h2⟩ := hb1 s2 h
          unfold XInv
          rw [h1, h2]
          exact ⟨by omega, hretrypos⟩
        · intro r h
          rw [hstep] at h
          obtain ⟨hq1, hq2, hq3, hq4, hq5⟩ := hb2 r h
          unfold XOutP
          refine ⟨by omega, fun h10 => absurd h10 (by omega), fun _ => ⟨hq3, hq4, hq5⟩,
            fun hc => ?_⟩
          rw [hq2] at hc
          cases hc
    · have hru9 : s.ru ≤ 9 := by omega
      have hstep : xferStep msgs send bb s =
          xferMsgBody send bb (msgs.getD s.i ⟨0, false, false, false, []⟩) s.i s.retry
            s.k s.kb s.st s.ps s.ru s.bc := by
        unfold xferStep
        rw [if_pos hi, if_neg hretry]
      obtain ⟨hb1, hb2⟩ := xferMsgBody_spec send bb
        (msgs.getD s.i ⟨0, false, false, false, []⟩) s.i s.retry s.k s.kb s.st s.ps s.ru s.bc
      constructor
      · intro s2 h
        rw [hstep] at h
        obtain ⟨h1, h2⟩ := hb1 s2 h
        unfold XInv
        rw [h1, h2]
        exact ⟨by omega, hpos⟩
      · intro r h
        rw [hstep] at h
        obtain ⟨hq1, hq2, hq3, hq4, hq5⟩ := hb2 r h
        unfold XOutP
        refine ⟨by omega, fun h10 => absurd h10 (by omega), fun _ => ⟨hq3, hq4, hq5⟩,
          fun hc => ?_⟩
        rw [hq2] at hc
        cases hc
  · have hru9 : s.ru ≤ 9 := by omega
    have hstep : xferStep msgs send bb s =
        Sum.inr (mkTailOut send s.k s.ps s.ru s.bc s.ret s.i) := by
      unfold xferStep
      rw [if_neg hi]
    obtain ⟨hm1, hm2, hm3, hm4, hm5⟩ := mkTailOut_spec send s.k s.ps s.ru s.bc s.ret s.i
    constructor
    · intro s2 h
      rw [hstep] at h
      simp at h
    · intro r h
      rw [hstep] at h
      simp only [Sum.inr.injEq] at h
      subst h
      unfold XOutP
      refine ⟨by omega, fun h10 => absurd h10 (by omega), fun _ => ⟨hm3, hm4, hm5⟩,
        fun hc => ?_⟩
      rw [hm2] at hc
      cases hc

/-- Any completed run of the orchestrator loop, started in a state satisfying
the budget invariant, produces a result satisfying the exit properties. -/
theorem xferRun_spec (msgs : List I2cMsg) (send : Nat → SendOutcome) (bb : Nat → Bool) :
    ∀ (fuel : Nat) (s : XSt) (r : XferOut), XInv s →
      xferRun msgs send bb fuel s = some r → XOutP r := by
  intro fuel
  induction fuel with
  | zero =>
    intro s r _ h
    simp [xferRun] at h
  | succ fuel ih =>
    intro s r hInv h
    rw [xferRun] at h
    cases hstep : xferStep msgs send bb s with
    | inr out =>
      rw [hstep] at h
      simp only [Option.some.injEq] at h
      subst h
      exact (xferStep_spec msgs send bb s hInv).2 out hstep
    | inl s2 =>
      rw [hstep] at h
      exact ih s2 r ((xferStep_spec msgs send bb s hInv).1 s2 hstep) h

/- ===== claim theorems ===== -/

/-- C1: evaluation of the transfer orchestrator on a two-message array whose
first addressing command is lost to arbitration, everything else succeeding.
The processing sequence is [0, 1]: after the STOP of the retry block the next
message processed is index 1, not index 0 as the claim states, because the
i = 0; continue; of source line 561 is followed by the for-loop increment of
line 515.  Message 0 is never re-processed, yet the call returns 2. -/
theorem c1_retry_restarts_at_index_one :
    ns9xxx_i2c_xfer msgs2 sendC1 bbLow 10 =
      some ⟨2, [0, 1], 1, [], false, [I2C_CMD_STOP], false, none⟩ := by
  decide

/-- C2 counterexample: writing the single byte 7 issues the command word
I2C_CMD_NOP | I2C_CMD_TXVAL | 7 = 0x2007, which differs from the word
I2C_CMD_WRITE | I2C_CMD_TXVAL | 7 the claim specifies. -/
theorem c2_write_word_counterexample :
    ns9xxx_i2c_write sendOk 0 IntState.ok [7] =
      ⟨[I2C_CMD_NOP ||| I2C_CMD_TXVAL ||| 7], 0, 1, IntState.ok⟩ ∧
    I2C_CMD_NOP ||| I2C_CMD_TXVAL ||| 7 ≠ I2C_CMD_WRITE ||| I2C_CMD_TXVAL ||| 7 := by
  constructor
  · decide
  · decide

/-- C2 amended: for every buffer, the byte-write driver issues one command
per processed byte whose word is I2C_CMD_NOP | I2C_CMD_TXVAL | byte (not
I2C_CMD_WRITE | ...), and it stops issuing commands at the first command
failure: either every command succeeded and all bytes were issued, or the
last issued command is the single failing one and all earlier ones
succeeded. -/
theorem c2_write_bytes_amended (send : Nat → SendOutcome) :
    ∀ (buf : List Nat) (k : Nat) (st : IntState),
      (ns9xxx_i2c_write send k st buf).cmds =
        (buf.take (ns9xxx_i2c_write send k st buf).cmds.length).map
          (fun b => I2C_CMD_NOP ||| I2C_CMD_TXVAL ||| b) ∧
      (ns9xxx_i2c_write send k st buf).cmds.length ≤ buf.length ∧
      ((ns9xxx_i2c_write send k st buf).ret = 0 ∧
          (ns9xxx_i2c_write send k st buf).cmds.length = buf.length ∧
          (∀ j, j < buf.length → (sendStep (send (k + j))).1 = 0) ∨
        (ns9xxx_i2c_write send k st buf).ret ≠ 0 ∧
          ∃ m, m + 1 = (ns9xxx_i2c_write send k st buf).cmds.length ∧
            (sendStep (send (k + m))).1 = (ns9xxx_i2c_write send k st buf).ret ∧
            ∀ j, j < m → (sendStep (send (k + j))).1 = 0) := by
  intro buf
  induction buf with
  | nil =>
    intro k st
    refine ⟨rfl, by simp [ns9xxx_i2c_write], Or.inl ⟨rfl, rfl, ?_⟩⟩
    intro j hj
    simp at hj
  | cons b rest ih =>
    intro k st
    by_cases h : (sendStep (send k)).1 = 0
    · have hw : ns9xxx_i2c_write send k st (b :: rest) =
          ⟨(I2C_CMD_NOP ||| I2C_CMD_TXVAL ||| b) ::
             (ns9xxx_i2c_write send (k+1) (sendStep (send k)).2 rest).cmds,
           (ns9xxx_i2c_write send (k+1) (sendStep (send k)).2 rest).ret,
           (ns9xxx_i2c_write send (k+1) (sendStep (send k)).2 rest).next,
           (ns9xxx_i2c_write send (k+1) (sendStep (send k)).2 rest).st⟩ := by
        simp [ns9xxx_i2c_write, h]
      obtain ⟨ih1, ih2, ih3⟩ := ih (k+1) (sendStep (send k)).2
      rw [hw]
      refine ⟨?_, ?_, ?_⟩
      · simp only [List.length_cons, List.take_succ_cons, List.map_cons]
        exact congrArg _ ih1
      · simp only [List.length_cons]
        omega
      · rcases ih3 with ⟨hr0, hlen, hall⟩ | ⟨hrne, m, hm, hms, hprev⟩
        · refine Or.inl ⟨hr0, by simp [hlen], ?_⟩
          intro j hj
          rcases Nat.eq_zero_or_pos j with rfl | hjpos
          · simpa using h
          · have hj2 : j - 1 < rest.length := by simp at hj; omega
            have h3 := hall (j - 1) hj2
            have heq : k + 1 + (j - 1) = k + j := by omega
            rwa [heq] at h3
        · refine Or.inr ⟨hrne, m + 1, by simp [← hm], ?_, ?_⟩
          · have heq : k + (m + 1) = k + 1 + m := by omega
            rw [heq]
            exact hms
          · intro j hj
            rcases Nat.eq_zero_or_pos j with rfl | hjpos
            · simpa using h
            · have hj2 : j - 1 < m := by omega
              have h3 := hprev (j - 1) hj2
              have heq : k + 1 + (j - 1) = k + j := by omega
              rwa [heq] at h3
    · have hw : ns9xxx_i2c_write send k st (b :: rest) =
          ⟨[I2C_CMD_NOP ||| I2C_CMD_TXVAL ||| b], (sendStep (send k)).1, k + 1,
            (sendStep (send k)).2⟩ := by
        simp [ns9xxx_i2c_write, h]
      rw [hw]
      refine ⟨by simp, by simp, Or.inr ⟨h, 0, rfl, by simpa using rfl, ?_⟩⟩
      intro j hj
      omega

/-- C2 amended, witness: the issued-command count never exceeds the buffer
length, instantiated at the one-byte buffer [5]. -/
theorem c2_write_bytes_amended_witness :
    (ns9xxx_i2c_write sendOk 0 IntState.ok [5]).cmds.length ≤ [5].length :=
  (c2_write_bytes_amended sendOk [5] 0 IntState.ok).2.1

/-- C3 counterexample: on the two-message array, with an outcome stream that
makes exactly the first ten addressing commands lose arbitration (every
outcome from index 20 on would succeed), the transfer already returns -EIO
out of the tenth arbitration-loss block: the retry budget permits only nine
restarts that resume processing, so an eleventh consecutive Retry can never
be what produces the error. -/
theorem c3_retry_budget_counterexample :
    ns9xxx_i2c_xfer msgs2 sendC3 bbLow 30 =
      some ⟨-eioErr, [0, 1, 1, 1, 1, 1, 1, 1, 1, 1], 10, [], true, [], false, some 1⟩ := by
  decide

/-- C3 amended: within one transfer the arbitration-loss block of source
lines 516-521 runs at most 10 times, and when it runs the tenth time the
transfer returns -EIO through the early in-loop return instead of processing
another message; so the loop is restarted with processing resuming at most
9 times, and the tenth consecutive Retry (not the eleventh) produces the
-EIO result. -/
theorem c3_retry_budget_amended (msgs : List I2cMsg) (send : Nat → SendOutcome)
    (bb : Nat → Bool) (fuel : Nat) (r : XferOut)
    (h : ns9xxx_i2c_xfer msgs send bb fuel = some r) :
    r.retriesUsed ≤ 10 ∧ (r.retriesUsed = 10 → r.ret = -eioErr ∧ r.early = true) := by
  have hx := xferRun_spec msgs send bb fuel ⟨0, 10, 0, 0, IntState.ok, 0, none, [], 0, []⟩ r
    (by unfold XInv; exact ⟨by decide, by decide⟩) h
  exact ⟨hx.1, hx.2.1⟩

/-- C3 amended, witness: instantiated at the empty transfer. -/
theorem c3_retry_budget_amended_witness :
    (⟨0, [], 0, [], false, [I2C_CMD_STOP], false, none⟩ : XferOut).retriesUsed ≤ 10 :=
  (c3_retry_budget_amended [] sendOk bbLow 1
    ⟨0, [], 0, [], false, [I2C_CMD_STOP], false, none⟩ (by decide)).1

/-- C4: evaluation of the probe paths.  A zero-length message is routed to
the bit-bang probe (bbCalls = [0], no register command issued for it), as the
claim states; but when the sampled acknowledge bit is low - a device pulling
the data line down to acknowledge - the probe returns -ENODEV and the
transfer fails, and it returns success precisely when the sampled bit is
high, the opposite of the claimed (and I2C-correct) polarity of source line
321: return ret ? 0 : -ENODEV. -/
theorem c4_bitbang_ack_polarity :
    (ns9xxx_i2c_bitbang false 80 false).ret = -enodevErr ∧
    (ns9xxx_i2c_bitbang false 80 true).ret = 0 ∧
    ns9xxx_i2c_xfer msgs0 sendOk bbLow 10 =
      some ⟨-enodevErr, [0], 0, [0], false, [I2C_CMD_STOP], false, none⟩ := by
  refine ⟨by decide, by decide, by decide⟩

/-- C9 counterexample: when the first addressing command loses arbitration
and the retry-block STOP then fails, the transfer returns -EIO through the
in-loop return of source line 520: no tail STOP is attempted after the
message loop (tailCmds = []) and the buffer cursor is left pointing into
message 0 (bufFinal = some 0) instead of being cleared. -/
theorem c9_early_return_counterexample :
    ns9xxx_i2c_xfer msgs2 sendC9 bbLow 10 =
      some ⟨-eioErr, [0], 1, [], true, [], false, some 0⟩ := by
  decide

/-- C9 amended: on every return of the transfer entry point except the
in-loop retry-exhaustion return of source line 520, the tail block runs: a
STOP is attempted, escalating to NOP-then-STOP, with the GPIO bus reset only
after the escalated STOP also failed, and the buffer cursor is cleared; the
excepted early path returns -EIO with no tail STOP and no cursor clear. -/
theorem c9_tail_cleanup_amended (msgs : List I2cMsg) (send : Nat → SendOutcome)
    (bb : Nat → Bool) (fuel : Nat) (r : XferOut)
    (h : ns9xxx_i2c_xfer msgs send bb fuel = some r) :
    (r.early = false → r.bufFinal = none ∧
      (r.tailCmds = [I2C_CMD_STOP] ∨
        r.tailCmds = [I2C_CMD_STOP, I2C_CMD_NOP, I2C_CMD_STOP]) ∧
      (r.tailReset = true → r.tailCmds = [I2C_CMD_STOP, I2C_CMD_NOP, I2C_CMD_STOP])) ∧
    (r.early = true → r.ret = -eioErr ∧ r.tailCmds = [] ∧ r.tailReset = false) := by
  have hx := xferRun_spec msgs send bb fuel ⟨0, 10, 0, 0, IntState.ok, 0, none, [], 0, []⟩ r
    (by unfold XInv; exact ⟨by decide, by decide⟩) h
  exact ⟨hx.2.2.1, hx.2.2.2⟩

/-- C9 amended, witness: on the empty transfer (not an early return) the
cursor ends cleared. -/
theorem c9_tail_cleanup_amended_witness :
    (⟨0, [], 0, [], false, [I2C_CMD_STOP], false, none⟩ : XferOut).bufFinal = none :=
  ((c9_tail_cleanup_amended [] sendOk bbLow 1
    ⟨0, [], 0, [], false, [I2C_CMD_STOP], false, none⟩ (by decide)).1 rfl).1

/-- C10: for every requested frequency other than 100000 Hz and 400000 Hz
the clock setter returns -EINVAL and writes nothing to the configuration
register. -/
theorem c10_set_clock_invalid_freq (oldConfig rate delay freq : Nat)
    (h1 : freq ≠ I2C_NORMALSPEED) (h2 : freq ≠ I2C_HIGHSPEED) :
    ns9xxx_i2c_set_clock oldConfig rate delay freq = (-einvalErr, none) := by
  simp [ns9xxx_i2c_set_clock, h1, h2]

/-- C10 witness: instantiated at frequency 0. -/
theorem c10_set_clock_invalid_freq_witness :
    ns9xxx_i2c_set_clock 0 0 0 0 = (-einvalErr, none) :=
  c10_set_clock_invalid_freq 0 0 0 0 (by decide) (by decide)

/-- C5 counterexample: at clock rate 120 MHz, delay 0 and 100 kHz the driver
writes configuration value 148 = ((120000000/400000) - 4 - 0) / 2 masked
with the nine-bit mask 0x1ff, but the claimed seven-bit masking of the same
formula would give 148 &&& 0x7f = 20, a different field. -/
theorem c5_clkref_mask_counterexample :
    ns9xxx_i2c_set_clock 0 120000000 0 I2C_NORMALSPEED = (0, some 148) ∧
    ((120000000 / (4 * I2C_NORMALSPEED) - 4 - 0) / 2) &&& 0x7f ≠ 148 := by
  constructor
  · decide
  · decide

/-- C6: when the bounded wait after writing the command times out and the
busy re-poll reports the controller idle, ns9xxx_i2c_send_cmd reports the
stuck-but-not-retried condition and returns -ETIMEDOUT having written the
command word exactly once: no second command write happens on the timeout
path (the retry block of source lines 211-226 is compiled out). -/
theorem c6_send_cmd_timeout_no_retry (cmd status0 : Nat)
    (entryReads timeoutReads : Nat → Nat) (w : Nat)
    (hEntry : status0 &&& I2C_STATUS_MCMDL = 0 ∨ (ns9xxx_wait_while_busy entryReads w).1 = 0)
    (hIdle : (ns9xxx_wait_while_busy timeoutReads w).1 = 0) :
    ns9xxx_i2c_send_cmd cmd status0 entryReads timeoutReads w none =
      ⟨-etimedoutErr, [cmd], true⟩ ∧
    (ns9xxx_i2c_send_cmd cmd status0 entryReads timeoutReads w none).writes.length = 1 := by
  have hcond : ¬(status0 &&& I2C_STATUS_MCMDL ≠ 0 ∧
      (ns9xxx_wait_while_busy entryReads w).1 ≠ 0) := by
    rcases hEntry with h | h <;> simp [h]
  constructor
  · simp [ns9xxx_i2c_send_cmd, hcond, hIdle]
  · simp [ns9xxx_i2c_send_cmd, hcond, hIdle]

/-- C6 witness: instantiated with an idle controller and the STOP word. -/
theorem c6_send_cmd_timeout_no_retry_witness :
    ns9xxx_i2c_send_cmd I2C_CMD_STOP 0 (fun _ => 0) (fun _ => 0) 0 none =
      ⟨-etimedoutErr, [I2C_CMD_STOP], true⟩ :=
  (c6_send_cmd_timeout_no_retry I2C_CMD_STOP 0 (fun _ => 0) (fun _ => 0) 0
    (Or.inl (by decide)) (by decide)).1

/-- C7: whenever the interrupt classifier sees the no-acknowledge cause while
the completion state is Awaiting, its event trace is exactly: read status,
write the STOP command word, set the Abort state, wake the waiter - so the
STOP write precedes both the transition to Abort and the wakeup; and on all
inputs whatsoever, any trace containing the transition to Abort is that very
trace, so Abort is never reached without the STOP having been written
first. -/
theorem c7_noack_stop_before_abort (status : Nat) (st : IntState) (bufSet : Bool) :
    (st = IntState.awaiting → status &&& I2C_STATUS_IRQCD_MASK = I2C_IRQ_NOACK →
      ns9xxx_i2c_irq status st bufSet =
        [IrqEvent.readStatus status, IrqEvent.writeCmd I2C_CMD_STOP,
         IrqEvent.setState IntState.abort, IrqEvent.wake]) ∧
    (IrqEvent.setState IntState.abort ∈ ns9xxx_i2c_irq status st bufSet →
      ns9xxx_i2c_irq status st bufSet =
        [IrqEvent.readStatus status, IrqEvent.writeCmd I2C_CMD_STOP,
         IrqEvent.setState IntState.abort, IrqEvent.wake]) := by
  constructor
  · intro h1 h2
    unfold ns9xxx_i2c_irq
    rw [if_neg (by simp [h1]), if_neg (by rw [h2]; decide),
      if_neg (by rw [h2]; decide), if_pos h2]
  · intro hmem
    by_cases hA : st = IntState.awaiting
    · by_cases hRX : status &&& I2C_STATUS_IRQCD_MASK = I2C_IRQ_RXDATA
      · exfalso
        unfold ns9xxx_i2c_irq at hmem
        rw [if_neg (by simp [hA]), if_pos hRX] at hmem
        cases bufSet <;> simp at hmem
      · by_cases hAck : status &&& I2C_STATUS_IRQCD_MASK = I2C_IRQ_CMDACK ∨
            status &&& I2C_STATUS_IRQCD_MASK = I2C_IRQ_TXDATA
        · exfalso
          unfold ns9xxx_i2c_irq at hmem
          rw [if_neg (by simp [hA]), if_neg hRX, if_pos hAck] at hmem
          simp at hmem
        · by_cases hN : status &&& I2C_STATUS_IRQCD_MASK = I2C_IRQ_NOACK
          · unfold ns9xxx_i2c_irq
            rw [if_neg (by simp [hA]), if_neg hRX, if_neg hAck, if_pos hN]
          · by_cases hArb : status &&& I2C_STATUS_IRQCD_MASK = I2C_IRQ_ARBITLOST
            · exfalso
              unfold ns9xxx_i2c_irq at hmem
              rw [if_neg (by simp [hA]), if_neg hRX, if_neg hAck, if_neg hN,
                if_pos hArb] at hmem
              simp at hmem
            · exfalso
              unfold ns9xxx_i2c_irq at hmem
              rw [if_neg (by simp [hA]), if_neg hRX, if_neg hAck, if_neg hN,
                if_neg hArb] at hmem
              simp at hmem
    · exfalso
      unfold ns9xxx_i2c_irq at hmem
      rw [if_pos hA] at hmem
      simp at hmem

/-- C7 witness: a NOACK status word while Awaiting produces exactly the
STOP-then-Abort-then-wake trace. -/
theorem c7_noack_stop_before_abort_witness :
    ns9xxx_i2c_irq 0x0200 IntState.awaiting false =
      [IrqEvent.readStatus 0x0200, IrqEvent.writeCmd I2C_CMD_STOP,
       IrqEvent.setState IntState.abort, IrqEvent.wake] :=
  (c7_noack_stop_before_abort 0x0200 IntState.awaiting false).1 rfl (by decide)

/-- C8: ns9xxx_wait_while_busy returns success immediately (with no reinit)
when the lock bit is clear on entry; it never invokes the controller
reinitialisation more than 10 times; when it fails it fails with -ETIMEDOUT
after exactly 10 reinitialisations; and every reinitialisation is preceded by
a polling window that ran its full budget of status reads, all of which still
showed the lock bit set. -/
theorem c8_wait_while_busy_bounded (reads : Nat → Nat) (w : Nat) :
    (reads 0 &&& I2C_STATUS_MCMDL = 0 → ns9xxx_wait_while_busy reads w = (0, 0)) ∧
    (ns9xxx_wait_while_busy reads w).2 ≤ BUSY_RELEASE_ATTEMPTS ∧
    ((ns9xxx_wait_while_busy reads w).1 ≠ 0 →
      (ns9xxx_wait_while_busy reads w).1 = -etimedoutErr ∧
      (ns9xxx_wait_while_busy reads w).2 = BUSY_RELEASE_ATTEMPTS) ∧
    (∀ idx idx2, pollAttempt reads idx w = PollOut.expired idx2 →
      idx2 = idx + w ∧ ∀ j, j < w → reads (idx + j) &&& I2C_STATUS_MCMDL ≠ 0) := by
  refine ⟨fun h => by simp [ns9xxx_wait_while_busy, h], ?_, ?_,
    fun idx idx2 h => pollAttempt_expired_spec reads w idx idx2 h⟩
  · by_cases h : reads 0 &&& I2C_STATUS_MCMDL = 0
    · simp [ns9xxx_wait_while_busy, h]
    · unfold ns9xxx_wait_while_busy
      rw [if_neg h]
      exact busyAttempts_reinits_le reads w BUSY_RELEASE_ATTEMPTS 1
  · intro hne
    by_cases h : reads 0 &&& I2C_STATUS_MCMDL = 0
    · simp [ns9xxx_wait_while_busy, h] at hne
    · unfold ns9xxx_wait_while_busy at hne ⊢
      rw [if_neg h] at hne ⊢
      exact busyAttempts_fail reads w BUSY_RELEASE_ATTEMPTS 1 hne

/-- C8 witness: with the lock bit stuck on, the wait fails with -ETIMEDOUT
after the full budget of 10 reinitialisations. -/
theorem c8_wait_while_busy_bounded_witness :
    (ns9xxx_wait_while_busy (fun _ => 0x1000) 1).1 = -etimedoutErr ∧
    (ns9xxx_wait_while_busy (fun _ => 0x1000) 1).2 = BUSY_RELEASE_ATTEMPTS :=
  (c8_wait_while_busy_bounded (fun _ => 0x1000) 1).2.2.1 (by decide)

/-- C5 amended: for every old configuration value, clock rate below 2^32 and
delay constant for which the CLKREF formula does not underflow, the field
written to the configuration register equals the documented formula -
((rate/(4*freq)) - 4 - delay)/2 at 100 kHz and
((rate/(4*freq)) - 4 - delay)*2/3 at 400 kHz - masked with the nine-bit
field mask 0x1ff (I2C_CONFIG_CLREFMASK), not a seven-bit mask. -/
theorem c5_clkref_formula_amended (oldConfig rate delay : Nat) (hrate : rate < two32) :
    ((4 + delay ≤ rate / (4 * I2C_NORMALSPEED)) →
      ∃ cfg, (ns9xxx_i2c_set_clock oldConfig rate delay I2C_NORMALSPEED).2 = some cfg ∧
        cfg &&& I2C_CONFIG_CLREFMASK =
          ((rate / (4 * I2C_NORMALSPEED) - 4 - delay) / 2) &&& I2C_CONFIG_CLREFMASK) ∧
    ((4 + delay ≤ rate / (4 * I2C_HIGHSPEED)) →
      ∃ cfg, (ns9xxx_i2c_set_clock oldConfig rate delay I2C_HIGHSPEED).2 = some cfg ∧
        cfg &&& I2C_CONFIG_CLREFMASK =
          ((rate / (4 * I2C_HIGHSPEED) - 4 - delay) * 2 / 3) &&& I2C_CONFIG_CLREFMASK) := by
  have hmod : rate % two32 = rate := Nat.mod_eq_of_lt hrate
  constructor
  · intro h
    have ha : rate / (4 * I2C_NORMALSPEED) < two32 :=
      lt_of_le_of_lt (Nat.div_le_self _ _) hrate
    have hs1 : sub32 (rate / (4 * I2C_NORMALSPEED)) 4 = rate / (4 * I2C_NORMALSPEED) - 4 :=
      sub32_of_le _ _ ha (by omega)
    have hs2 : sub32 (rate / (4 * I2C_NORMALSPEED) - 4) delay =
        rate / (4 * I2C_NORMALSPEED) - 4 - delay :=
      sub32_of_le _ _ (by omega) (by omega)
    refine ⟨(oldConfig % two32 &&& (two32 - 1 - I2C_CONFIG_CLREFMASK) &&&
        (two32 - 1 - I2C_CONFIG_TMDE) &&& (two32 - 1 - I2C_CONFIG_VSCD)) |||
        (((rate / (4 * I2C_NORMALSPEED) - 4 - delay) / 2) &&& I2C_CONFIG_CLREFMASK), ?_, ?_⟩
    · unfold ns9xxx_i2c_set_clock
      rw [if_pos rfl, hmod, hs1, hs2]
    · rw [Nat.and_distrib_right]
      have hC : oldConfig % two32 &&& (two32 - 1 - I2C_CONFIG_CLREFMASK) &&&
          (two32 - 1 - I2C_CONFIG_TMDE) &&& (two32 - 1 - I2C_CONFIG_VSCD) &&&
          I2C_CONFIG_CLREFMASK = 0 := by
        rw [Nat.and_assoc, Nat.and_assoc, Nat.and_assoc]
        have hconst : (two32 - 1 - I2C_CONFIG_CLREFMASK) &&&
            ((two32 - 1 - I2C_CONFIG_TMDE) &&& ((two32 - 1 - I2C_CONFIG_VSCD) &&&
              I2C_CONFIG_CLREFMASK)) = 0 := by decide
        rw [hconst, Nat.and_zero]
      have hX : (((rate / (4 * I2C_NORMALSPEED) - 4 - delay) / 2) &&&
          I2C_CONFIG_CLREFMASK) &&& I2C_CONFIG_CLREFMASK =
          ((rate / (4 * I2C_NORMALSPEED) - 4 - delay) / 2) &&& I2C_CONFIG_CLREFMASK := by
        rw [Nat.and_assoc, Nat.and_self]
      rw [hC, hX, Nat.zero_or]
  · intro h
    have ha : rate / (4 * I2C_HIGHSPEED) < two32 :=
      lt_of_le_of_lt (Nat.div_le_self _ _) hrate
    have hs1 : sub32 (rate / (4 * I2C_HIGHSPEED)) 4 = rate / (4 * I2C_HIGHSPEED) - 4 :=
      sub32_of_le _ _ ha (by omega)
    have hs2 : sub32 (rate / (4 * I2C_HIGHSPEED) - 4) delay =
        rate / (4 * I2C_HIGHSPEED) - 4 - delay :=
      sub32_of_le _ _ (by omega) (by omega)
    have hr2 : rate ≤ 4294967295 := by
      unfold two32 at hrate
      omega
    have hbound : rate / (4 * I2C_HIGHSPEED) ≤ 2684 := by
      have hd : rate / (4 * I2C_HIGHSPEED) ≤ 4294967295 / (4 * I2C_HIGHSPEED) :=
        Nat.div_le_div_right hr2
      have he : (4294967295 : Nat) / (4 * I2C_HIGHSPEED) = 2684 := by decide
      omega
    have hmul : (rate / (4 * I2C_HIGHSPEED) - 4 - delay) * 2 % two32 =
        (rate / (4 * I2C_HIGHSPEED) - 4 - delay) * 2 := by
      apply Nat.mod_eq_of_lt
      unfold two32
      omega
    refine ⟨((oldConfig % two32 &&& (two32 - 1 - I2C_CONFIG_CLREFMASK) |||
        I2C_CONFIG_TMDE) &&& (two32 - 1 - I2C_CONFIG_VSCD)) |||
        (((rate / (4 * I2C_HIGHSPEED) - 4 - delay) * 2 / 3) &&& I2C_CONFIG_CLREFMASK), ?_, ?_⟩
    · unfold ns9xxx_i2c_set_clock
      rw [if_neg (by decide), if_pos rfl, hmod, hs1, hs2, hmul]
    · rw [Nat.and_distrib_right]
      have hC : ((oldConfig % two32 &&& (two32 - 1 - I2C_CONFIG_CLREFMASK) |||
          I2C_CONFIG_TMDE) &&& (two32 - 1 - I2C_CONFIG_VSCD)) &&&
          I2C_CONFIG_CLREFMASK = 0 := by
        rw [Nat.and_assoc]
        have h1 : (two32 - 1 - I2C_CONFIG_VSCD) &&& I2C_CONFIG_CLREFMASK =
            I2C_CONFIG_CLREFMASK := by decide
        rw [h1, Nat.and_distrib_right, Nat.and_assoc]
        have h2 : (two32 - 1 - I2C_CONFIG_CLREFMASK) &&& I2C_CONFIG_CLREFMASK = 0 := by
          decide
        have h3 : I2C_CONFIG_TMDE &&& I2C_CONFIG_CLREFMASK = 0 := by decide
        rw [h2, h3, Nat.and_zero, Nat.or_zero]
      have hX : (((rate / (4 * I2C_HIGHSPEED) - 4 - delay) * 2 / 3) &&&
          I2C_CONFIG_CLREFMASK) &&& I2C_CONFIG_CLREFMASK =
          ((rate / (4 * I2C_HIGHSPEED) - 4 - delay) * 2 / 3) &&& I2C_CONFIG_CLREFMASK := by
        rw [Nat.and_assoc, Nat.and_self]
      rw [hC, hX, Nat.zero_or]

/-- C5 amended, witness: at rate 120 MHz, delay 0 and 100 kHz, the written
field satisfies the nine-bit-masked formula. -/
theorem c5_clkref_formula_amended_witness :
    ∃ cfg, (ns9xxx_i2c_set_clock 0 120000000 0 I2C_NORMALSPEED).2 = some cfg ∧
      cfg &&& I2C_CONFIG_CLREFMASK =
        ((120000000 / (4 * I2C_NORMALSPEED) - 4 - 0) / 2) &&& I2C_CONFIG_CLREFMASK :=
  (c5_clkref_formula_amended 0 120000000 0 (by decide)).1 (by decide)
